import Mathlib

/-
  Shallow embedding of the subscription/credit synchronization core of
  `src/src/App.tsx` (components `App` and `AppContent`) together with the
  language mutation of `src/src/components/shared/LanguageSelector.tsx`.

  Modelling conventions:
  * React `useState` state is threaded explicitly; the `window.__CREDITS__`,
    `window.__LANGUAGE__`, `window.__IS_INITIALIZED__` globals form a `Window`
    record (fields start out undefined, hence `Option`).
  * supabase-js never throws on a network failure: a query resolves with
    `\x7b data, error \x7d`, and the code under scrutiny destructures only
    `data`, so both row absence and transient failure reach it as `data = null`.
    `ReadOutcome` keeps the distinction at the model boundary and `dataOf`
    projects it to what the code can observe.
  * Gateway interactions are recorded as an explicit `List GatewayCall` so that
    statements such as "performs no write" are provable.
  * Machine integers: `credits` is a Postgres integer, modelled as `Int`
    (the decrement in the debit path is unguarded and may go below zero).
-/

namespace CreditSync

/-- A row of the remote `subscriptions` table (the authoritative
SubscriptionRecord): `user_id`, `credits`, `preferred_language`. -/
structure SubscriptionRow where
  user_id : String
  credits : Int
  preferred_language : String
deriving Repr, DecidableEq

/-- The process-wide synchronously readable slot: `window.__CREDITS__`,
`window.__LANGUAGE__`, `window.__IS_INITIALIZED__`. All three globals are
undefined until first written. -/
structure Window where
  credits : Option Int
  language : Option String
  isInitialized : Option Bool
deriving Repr, DecidableEq

/-- Window state at process start: all three globals undefined. -/
def initialWindow : Window :=
  { credits := none, language := none, isInitialized := none }

/-- React state of the `App` component: `credits` (useState 0),
`currentLanguage` (useState "python"), `isInitialized` (useState false). -/
structure AppState where
  credits : Int
  currentLanguage : String
  isInitialized : Bool
deriving Repr, DecidableEq

/-- Initial `App` component state as declared by its `useState` calls. -/
def initialAppState : AppState :=
  { credits := 0, currentLanguage := "python", isInitialized := false }

/-- `updateCredits` (App.tsx lines 49-52): set React credits state and mirror
the value into `window.__CREDITS__`. -/
def updateCredits (s : AppState) (w : Window) (newCredits : Int) :
    AppState × Window :=
  ({ s with credits := newCredits }, { w with credits := some newCredits })

/-- `updateLanguage` (App.tsx lines 55-58): set React language state and mirror
the value into `window.__LANGUAGE__`. -/
def updateLanguage (s : AppState) (w : Window) (newLanguage : String) :
    AppState × Window :=
  ({ s with currentLanguage := newLanguage },
   { w with language := some newLanguage })

/-- `markInitialized` (App.tsx lines 61-64): set `isInitialized` to true and
mirror into `window.__IS_INITIALIZED__`. -/
def markInitialized (s : AppState) (w : Window) : AppState × Window :=
  ({ s with isInitialized := true }, { w with isInitialized := some true })

/-- Outcome of the authoritative `.single()` read of the subscriptions row.
`absent` (no row) and `netError` (transient/network failure) both surface to
the code as `data = null`. -/
inductive ReadOutcome where
  | found (row : SubscriptionRow)
  | absent
  | netError
deriving Repr, DecidableEq

/-- The `data` field the destructuring `const \x7b data: subscription \x7d`
extracts: the code never looks at `error`, so this is all it observes. -/
def dataOf : ReadOutcome → Option SubscriptionRow
  | ReadOutcome.found row => some row
  | ReadOutcome.absent => none
  | ReadOutcome.netError => none

/-- A call issued to the remote record gateway (supabase). -/
inductive GatewayCall where
  | readRecord
  | updateRecord (credits : Int)
  | subscribeChannel (name : String)
deriving Repr, DecidableEq

/-- `initializeAndSubscribe` (App.tsx lines 119-158), state-relevant part:
with no authenticated user, write defaults and mark initialized without
touching the gateway; with a user, perform the authoritative read, write
`subscription?.credits ?? 1` and `subscription?.preferred_language ?? "python"`,
mark initialized, and subscribe the "credits" channel. Returns the new App
state, the new window slot, and the list of gateway calls issued. -/
def initializeAndSubscribe (user : Option String) (read : ReadOutcome)
    (s : AppState) (w : Window) : AppState × Window × List GatewayCall :=
  match user with
  | none =>
      let (s1, w1) := updateCredits s w 1
      let (s2, w2) := updateLanguage s1 w1 "python"
      let (s3, w3) := markInitialized s2 w2
      (s3, w3, [])
  | some _ =>
      let subscription := dataOf read
      let (s1, w1) :=
        updateCredits s w ((subscription.map (fun r => r.credits)).getD 1)
      let (s2, w2) :=
        updateLanguage s1 w1
          ((subscription.map (fun r => r.preferred_language)).getD "python")
      let (s3, w3) := markInitialized s2 w2
      (s3, w3, [GatewayCall.readRecord, GatewayCall.subscribeChannel "credits"])

/-- The remote gateway as seen by one debit: the current row (if any) and
whether the read / the update call fails with a network error. -/
structure Gateway where
  row : Option SubscriptionRow
  readFails : Bool
  updateFails : Bool
deriving Repr, DecidableEq

/-- The `data` the debit's pre-update `.single()` read yields: null on failure
or absence, the row otherwise. -/
def gatewayRead (g : Gateway) : Option SubscriptionRow :=
  if g.readFails then none else g.row

/-- The conditional update `update(\x7b credits \x7d).eq(user_id).select().single()`:
fails (data null, error set) on a network failure or when no row matches;
otherwise stores the new credits and returns the updated row. -/
def gatewayUpdateCredits (g : Gateway) (newCredits : Int) :
    Option (Gateway × SubscriptionRow) :=
  if g.updateFails then none
  else
    match g.row with
    | none => none
    | some r =>
        let r2 := { r with credits := newCredits }
        some ({ g with row := some r2 }, r2)

/-- Console output of one debit attempt (the code's only reporting channel). -/
inductive DebitLog where
  | warnNotInitialized
  | errNoSubscription
  | errUpdateFailed
deriving Repr, DecidableEq

/-- Result of one run of the `onSolutionSuccess` handler. -/
structure DebitResult where
  state : AppState
  window : Window
  gateway : Gateway
  calls : List GatewayCall
  logs : List DebitLog
deriving Repr, DecidableEq

/-- The `onSolutionSuccess` debit handler (App.tsx lines 161-196): if not
initialized, warn and return; else read current credits from the gateway
(`data` only - a failed read is indistinguishable from absence); if null,
log an error and return; else issue the update with `credits - 1`; on update
error log and return; on success write the returned credits into the replica
via `updateCredits`. -/
def onSolutionSuccess (isInitialized : Bool) (g : Gateway) (s : AppState)
    (w : Window) : DebitResult :=
  if !isInitialized then
    { state := s, window := w, gateway := g, calls := [],
      logs := [DebitLog.warnNotInitialized] }
  else
    match gatewayRead g with
    | none =>
        { state := s, window := w, gateway := g,
          calls := [GatewayCall.readRecord],
          logs := [DebitLog.errNoSubscription] }
    | some currentSubscription =>
        match gatewayUpdateCredits g (currentSubscription.credits - 1) with
        | none =>
            { state := s, window := w, gateway := g,
              calls := [GatewayCall.readRecord,
                        GatewayCall.updateRecord (currentSubscription.credits - 1)],
              logs := [DebitLog.errUpdateFailed] }
        | some (g2, updatedSubscription) =>
            let (s2, w2) := updateCredits s w updatedSubscription.credits
            { state := s2, window := w2, gateway := g2,
              calls := [GatewayCall.readRecord,
                        GatewayCall.updateRecord (currentSubscription.credits - 1)],
              logs := [] }

/-- React state of the `AppContent` component: `isSubscribed` (useState false),
`credits` (useState undefined, hence `Option`), `currentLanguage`. -/
structure AppContentState where
  isSubscribed : Bool
  credits : Option Int
  currentLanguage : String
deriving Repr, DecidableEq

/-- `checkSubscriptionAndCredits` (App.tsx lines 504-529): with no user, reset
to not subscribed / 0 credits / "python" without touching the gateway or the
window; with a user, `maybeSingle()` read, then `setIsSubscribed(!!subscription)`,
`setCredits(subscription?.credits ?? 0)`, and mirror `preferred_language` into
`window.__LANGUAGE__` only when it is a nonempty (truthy) string. -/
def checkSubscriptionAndCredits (user : Option String)
    (read : Option SubscriptionRow) (c : AppContentState) (w : Window) :
    AppContentState × Window × List GatewayCall :=
  match user with
  | none =>
      ({ isSubscribed := false, credits := some 0, currentLanguage := "python" },
       w, [])
  | some _ =>
      let c1 := { c with isSubscribed := read.isSome,
                         credits := some ((read.map (fun r => r.credits)).getD 0) }
      match read with
      | some r =>
          if r.preferred_language ≠ "" then
            ({ c1 with currentLanguage := r.preferred_language },
             { w with language := some r.preferred_language },
             [GatewayCall.readRecord])
          else (c1, w, [GatewayCall.readRecord])
      | none => (c1, w, [GatewayCall.readRecord])

/-- Postgres change-feed event type. -/
inductive EventType where
  | INSERT
  | UPDATE
  | DELETE
deriving Repr, DecidableEq

/-- A postgres_changes payload: event type and `payload.new` (absent for
DELETE events). -/
structure ChangePayload where
  eventType : EventType
  newRow : Option SubscriptionRow
deriving Repr, DecidableEq

/-- The `App` "credits" channel handler (App.tsx lines 153-156), fired for
UPDATE events filtered server-side to the current user:
`updateCredits(payload.new.credits)`. -/
def creditsChannelHandler (newRow : SubscriptionRow) (s : AppState)
    (w : Window) : AppState × Window :=
  updateCredits s w newRow.credits

/-- The `AppContent` sub-and-credits channel handler (App.tsx lines 544-587):
for UPDATE/DELETE, re-read the row with `maybeSingle()` and set
isSubscribed/credits (and mirror a truthy preferred_language) from the fresh
read, NOT from the event snapshot; for INSERT matching the current user, set
from `payload.new`. `read` is the fresh gateway read performed inside the
handler. -/
def subAndCreditsHandler (uid : String) (p : ChangePayload)
    (read : Option SubscriptionRow) (c : AppContentState) (w : Window) :
    AppContentState × Window :=
  match p.eventType with
  | EventType.UPDATE | EventType.DELETE =>
      let c1 := { c with isSubscribed := read.isSome,
                         credits := some ((read.map (fun r => r.credits)).getD 0) }
      (match read with
       | some r =>
           if r.preferred_language ≠ "" then
             ({ c1 with currentLanguage := r.preferred_language },
              { w with language := some r.preferred_language })
           else (c1, w)
       | none => (c1, w))
  | EventType.INSERT =>
      match p.newRow with
      | some r =>
          if r.user_id = uid then
            let c1 := { c with isSubscribed := true, credits := some r.credits }
            if r.preferred_language ≠ "" then
              ({ c1 with currentLanguage := r.preferred_language },
               { w with language := some r.preferred_language })
            else (c1, w)
          else (c, w)
      | none => (c, w)

/-- The cleanup closure built at App.tsx lines 200-207: unsubscribe the
channel of `owner` and reset the initialization flag. -/
structure Cleanup where
  owner : String
deriving Repr, DecidableEq

/-- Lifecycle view: the set of live "credits" channels (by owning user id)
together with the App state and the window slot. -/
structure LifecycleState where
  liveChannels : List String
  app : AppState
  window : Window
deriving Repr, DecidableEq

/-- Lifecycle state at component mount. -/
def initialLifecycle : LifecycleState :=
  { liveChannels := [], app := initialAppState, window := initialWindow }

/-- The async `initializeAndSubscribe` closure in full: runs the state updates,
subscribes the credits channel when a user is present, and returns the cleanup
closure of lines 200-207 as the async function's result value. -/
def initializeAndSubscribeAsync (user : Option String) (read : ReadOutcome)
    (st : LifecycleState) : LifecycleState × Option Cleanup :=
  match user with
  | none =>
      let (s, w, _) := initializeAndSubscribe none read st.app st.window
      ({ st with app := s, window := w }, none)
  | some uid =>
      let (s, w, _) := initializeAndSubscribe (some uid) read st.app st.window
      ({ st with app := s, window := w,
                 liveChannels := uid :: st.liveChannels },
       some { owner := uid })

/-- Running the cleanup closure: unsubscribe the owner's channel, set
`window.__IS_INITIALIZED__ = false` and `setIsInitialized(false)`. -/
def runCleanup (c : Cleanup) (st : LifecycleState) : LifecycleState :=
  { st with liveChannels := st.liveChannels.erase c.owner,
            app := { st.app with isInitialized := false },
            window := { st.window with isInitialized := some false } }

/-- The `useEffect` callback (App.tsx line 210): it invokes the async
`initializeAndSubscribe()` and discards the returned Promise, so the value
handed back to React as the effect's cleanup is always `none`. -/
def effectBody (user : Option String) (read : ReadOutcome)
    (st : LifecycleState) : LifecycleState × Option Cleanup :=
  let (st2, _promisedCleanup) := initializeAndSubscribeAsync user read st
  (st2, none)

/-- React re-running the effect on a dependency change (identity switch):
first run the cleanup the previous effect returned, if any, then run the
effect body. -/
def reactRerun (prevCleanup : Option Cleanup) (user : Option String)
    (read : ReadOutcome) (st : LifecycleState) :
    LifecycleState × Option Cleanup :=
  let st1 :=
    match prevCleanup with
    | some c => runCleanup c st
    | none => st
  effectBody user read st1

/-- Delivery of a credits-channel UPDATE event raised for user `uid`: each live
channel is filtered server-side to its owner, so the handler fires iff `uid`
owns a live channel (the handler is a pure set, so firing once or several
times coincide). -/
def deliverCreditsEvent (st : LifecycleState) (uid : String)
    (newRow : SubscriptionRow) : LifecycleState :=
  if uid ∈ st.liveChannels then
    let (a, w) := creditsChannelHandler newRow st.app st.window
    { st with app := a, window := w }
  else st

/-- Claim C10: with no authenticated identity, initialization completes with
credits 1, preferredLanguage "python", isInitialized true (mirrored into the
window slot), and issues no gateway read, no write, and no subscription. -/
theorem init_no_user_defaults (read : ReadOutcome) (s : AppState) (w : Window) :
    initializeAndSubscribe none read s w =
      ({ credits := 1, currentLanguage := "python", isInitialized := true },
       { credits := some 1, language := some "python", isInitialized := some true },
       []) := by
  rfl

/-- Claim C3: a billable-action-completed signal received while isInitialized
is false leaves the replica, the window slot and the gateway unchanged, issues
no gateway call at all, and only records a warning. -/
theorem debit_before_init_is_noop (g : Gateway) (s : AppState) (w : Window) :
    onSolutionSuccess false g s w =
      { state := s, window := w, gateway := g, calls := [],
        logs := [DebitLog.warnNotInitialized] } := by
  rfl

/-- Claim C2 is false as stated: with a user present and a transient
network failure on the authoritative read, the initializer still writes the
defaults (credits 1, "python") and sets isInitialized to true, because the
code never inspects the error channel. -/
theorem init_read_failure_defaults :
    (initializeAndSubscribe (some "u") ReadOutcome.netError initialAppState
        initialWindow).1 =
      { credits := 1, currentLanguage := "python", isInitialized := true } := by
  rfl

/-- Claim C2 amended: the initializer destructures only `data`, so any read
whose data is null - absence and network failure alike - yields the defaults,
sets isInitialized true, and mirrors all three values into the window slot. -/
theorem init_failure_equals_absence (u : String) (read : ReadOutcome)
    (s : AppState) (w : Window) (h : dataOf read = none) :
    initializeAndSubscribe (some u) read s w =
      ({ credits := 1, currentLanguage := "python", isInitialized := true },
       { credits := some 1, language := some "python", isInitialized := some true },
       [GatewayCall.readRecord, GatewayCall.subscribeChannel "credits"]) := by
  simp [initializeAndSubscribe, updateCredits, updateLanguage, markInitialized, h]

/-- Witness for the amended C2 theorem at a concrete transient failure. -/
theorem init_failure_equals_absence_witness :
    initializeAndSubscribe (some "u") ReadOutcome.netError initialAppState
        initialWindow =
      ({ credits := 1, currentLanguage := "python", isInitialized := true },
       { credits := some 1, language := some "python", isInitialized := some true },
       [GatewayCall.readRecord, GatewayCall.subscribeChannel "credits"]) :=
  init_failure_equals_absence "u" ReadOutcome.netError initialAppState
    initialWindow rfl

/-- Claim C5: for an identity whose authoritative read returns absence,
initialization yields credits 1, language "python", isInitialized true (all
mirrored into the synchronously readable window slot), the AppContent check
yields isSubscribed false, and neither path issues a gateway write. -/
theorem init_absent_defaults (u : String) (s : AppState) (w : Window)
    (c : AppContentState) :
    (initializeAndSubscribe (some u) ReadOutcome.absent s w).1 =
      { credits := 1, currentLanguage := "python", isInitialized := true } ∧
    (initializeAndSubscribe (some u) ReadOutcome.absent s w).2.1 =
      { credits := some 1, language := some "python",
        isInitialized := some true } ∧
    (checkSubscriptionAndCredits (some u) none c
        (initializeAndSubscribe (some u) ReadOutcome.absent s w).2.1).1.isSubscribed
      = false ∧
    (∀ n, GatewayCall.updateRecord n ∉
        (initializeAndSubscribe (some u) ReadOutcome.absent s w).2.2) ∧
    (∀ n, GatewayCall.updateRecord n ∉
        (checkSubscriptionAndCredits (some u) none c
          (initializeAndSubscribe (some u) ReadOutcome.absent s w).2.1).2.2) := by
  refine ⟨rfl, rfl, rfl, ?_, ?_⟩
  · intro n
    simp [initializeAndSubscribe, updateCredits, updateLanguage, markInitialized,
      dataOf]
  · intro n
    simp [checkSubscriptionAndCredits]

/-- Claim C6: with isInitialized true and a present record with credits N, one
signal issues exactly one read followed by exactly one update with credits
N - 1, after which the replica's credits (and the mirrored window slot) equal
the value returned by the gateway, N - 1; if the pre-update read finds no
record, the debit aborts with no update issued and no state change. -/
theorem debit_single_decrement (g : Gateway) (s : AppState) (w : Window)
    (hr : g.readFails = false) (hu : g.updateFails = false) :
    (∀ r, g.row = some r →
      (onSolutionSuccess true g s w).calls =
        [GatewayCall.readRecord, GatewayCall.updateRecord (r.credits - 1)] ∧
      (onSolutionSuccess true g s w).state.credits = r.credits - 1 ∧
      (onSolutionSuccess true g s w).gateway.row =
        some { r with credits := r.credits - 1 } ∧
      (onSolutionSuccess true g s w).window.credits = some (r.credits - 1)) ∧
    (g.row = none →
      onSolutionSuccess true g s w =
        { state := s, window := w, gateway := g,
          calls := [GatewayCall.readRecord],
          logs := [DebitLog.errNoSubscription] }) := by
  constructor
  · intro r hrow
    simp [onSolutionSuccess, gatewayRead, gatewayUpdateCredits, updateCredits,
      hr, hu, hrow]
  · intro hrow
    simp [onSolutionSuccess, gatewayRead, hr, hrow]

/-- Witness for the C6 theorem at the spec's concrete scenario N = 5. -/
theorem debit_single_decrement_witness :
    (onSolutionSuccess true
        { row := some { user_id := "u", credits := 5, preferred_language := "python" },
          readFails := false, updateFails := false }
        initialAppState initialWindow).state.credits = 4 ∧
    (onSolutionSuccess true
        { row := some { user_id := "u", credits := 5, preferred_language := "python" },
          readFails := false, updateFails := false }
        initialAppState initialWindow).calls =
      [GatewayCall.readRecord, GatewayCall.updateRecord 4] := by
  have h := (debit_single_decrement
      { row := some { user_id := "u", credits := 5, preferred_language := "python" },
        readFails := false, updateFails := false }
      initialAppState initialWindow rfl rfl).1
      { user_id := "u", credits := 5, preferred_language := "python" } rfl
  exact ⟨by rw [h.2.1]; decide, by rw [h.1]; decide⟩

/-- Claim C7: when the gateway read or the gateway update fails, the debit
leaves the replica, the window slot and the gateway record unchanged, reports
the error through the recorded error log (the code's only reporting channel),
and performs no retry: at most one read and at most one update are issued. -/
theorem debit_error_atomic_no_retry (g : Gateway) (s : AppState) (w : Window)
    (h : g.readFails = true ∨ g.updateFails = true) :
    (onSolutionSuccess true g s w).state = s ∧
    (onSolutionSuccess true g s w).window = w ∧
    (onSolutionSuccess true g s w).gateway = g ∧
    (onSolutionSuccess true g s w).logs ≠ [] ∧
    ((onSolutionSuccess true g s w).calls = [GatewayCall.readRecord] ∨
      ∃ n, (onSolutionSuccess true g s w).calls =
        [GatewayCall.readRecord, GatewayCall.updateRecord n]) := by
  cases hrf : g.readFails with
  | true =>
      refine ⟨?_, ?_, ?_, ?_, Or.inl ?_⟩ <;>
        simp [onSolutionSuccess, gatewayRead, hrf]
  | false =>
      cases hrow : g.row with
      | none =>
          refine ⟨?_, ?_, ?_, ?_, Or.inl ?_⟩ <;>
            simp [onSolutionSuccess, gatewayRead, hrf, hrow]
      | some r =>
          have hu : g.updateFails = true := by
            rcases h with h | h
            · rw [hrf] at h; exact absurd h (by simp)
            · exact h
          refine ⟨?_, ?_, ?_, ?_, Or.inr ⟨r.credits - 1, ?_⟩⟩ <;>
            simp [onSolutionSuccess, gatewayRead, gatewayUpdateCredits,
              hrf, hrow, hu]

/-- Witness for the C7 theorem at a concrete failing read. -/
theorem debit_error_atomic_no_retry_witness :
    (onSolutionSuccess true
        { row := some { user_id := "u", credits := 5, preferred_language := "python" },
          readFails := true, updateFails := false }
        initialAppState initialWindow).state = initialAppState ∧
    (onSolutionSuccess true
        { row := some { user_id := "u", credits := 5, preferred_language := "python" },
          readFails := true, updateFails := false }
        initialAppState initialWindow).logs ≠ [] :=
  ⟨(debit_error_atomic_no_retry _ initialAppState initialWindow (Or.inl rfl)).1,
   (debit_error_atomic_no_retry _ initialAppState initialWindow (Or.inl rfl)).2.2.2.1⟩

/-- Claim C1 is false as stated: from a reachable state - freshly
initialized against a present gateway record with credits 0 - a single debit
drives the stored credits (replica, window mirror, and gateway record) to -1:
there is no floor check anywhere on the debit path. -/
theorem credits_can_go_negative :
    (onSolutionSuccess true
        { row := some { user_id := "u", credits := 0, preferred_language := "python" },
          readFails := false, updateFails := false }
        (initializeAndSubscribe (some "u")
          (ReadOutcome.found
            { user_id := "u", credits := 0, preferred_language := "python" })
          initialAppState initialWindow).1
        (initializeAndSubscribe (some "u")
          (ReadOutcome.found
            { user_id := "u", credits := 0, preferred_language := "python" })
          initialAppState initialWindow).2.1).state.credits = -1 := by
  decide

/-- Claim C1 amended: initialization and feed application only ever store the
values they are given (with nonnegative defaults), but the debit stores
gateway credits minus one with no floor: the stored result is nonnegative iff
the record held at least 1 credit, and at credits 0 it becomes -1. -/
theorem debit_floor_policy (g : Gateway) (s : AppState) (w : Window)
    (r : SubscriptionRow) (hrow : g.row = some r) (hr : g.readFails = false)
    (hu : g.updateFails = false) :
    (onSolutionSuccess true g s w).state.credits = r.credits - 1 ∧
    (0 ≤ (onSolutionSuccess true g s w).state.credits ↔ 1 ≤ r.credits) := by
  have h : (onSolutionSuccess true g s w).state.credits = r.credits - 1 := by
    simp [onSolutionSuccess, gatewayRead, gatewayUpdateCredits, updateCredits,
      hr, hu, hrow]
  refine ⟨h, ?_⟩
  rw [h]
  omega

/-- Witness for the amended C1 theorem at a concrete record with 0 credits. -/
theorem debit_floor_policy_witness :
    (onSolutionSuccess true
        { row := some { user_id := "w", credits := 0, preferred_language := "python" },
          readFails := false, updateFails := false }
        initialAppState initialWindow).state.credits = 0 - 1 ∧
    ¬ (0 : Int) ≤ (onSolutionSuccess true
        { row := some { user_id := "w", credits := 0, preferred_language := "python" },
          readFails := false, updateFails := false }
        initialAppState initialWindow).state.credits := by
  have h := debit_floor_policy
      { row := some { user_id := "w", credits := 0, preferred_language := "python" },
        readFails := false, updateFails := false }
      initialAppState initialWindow
      { user_id := "w", credits := 0, preferred_language := "python" } rfl rfl rfl
  refine ⟨h.1, fun hc => ?_⟩
  have h2 : (1 : Int) ≤ 0 := h.2.mp hc
  omega

/-- Claim C8 is false as stated: the sub-and-credits handler applies an
UPDATE event by re-reading the gateway inside the handler, so the stored
credits equal the fresh read (here 3), not the event's new-snapshot
credits (here 5). -/
theorem feed_event_not_snapshot :
    (subAndCreditsHandler "u"
        { eventType := EventType.UPDATE,
          newRow := some
            { user_id := "u", credits := 5, preferred_language := "python" } }
        (some { user_id := "u", credits := 3, preferred_language := "python" })
        { isSubscribed := true, credits := some 5, currentLanguage := "python" }
        initialWindow).1.credits = some 3 ∧
    some (3 : Int) ≠ some (5 : Int) := by
  decide

/-- Claim C8 amended: the App credits-channel handler is a pure set of the
event's new-snapshot credits and is idempotent; the sub-and-credits handler is
idempotent given an unchanged in-handler gateway read, but it stores the fresh
read (UPDATE/DELETE) or the event snapshot (INSERT), so its result need not
equal the event's snapshot credits. -/
theorem feed_events_idempotent (r : SubscriptionRow) (s : AppState)
    (w : Window) (uid : String) (p : ChangePayload)
    (read : Option SubscriptionRow) (c : AppContentState) (w2 : Window) :
    (creditsChannelHandler r s w).1.credits = r.credits ∧
    creditsChannelHandler r (creditsChannelHandler r s w).1
        (creditsChannelHandler r s w).2 = creditsChannelHandler r s w ∧
    subAndCreditsHandler uid p read (subAndCreditsHandler uid p read c w2).1
        (subAndCreditsHandler uid p read c w2).2 =
      subAndCreditsHandler uid p read c w2 := by
  refine ⟨rfl, rfl, ?_⟩
  obtain ⟨et, nr⟩ := p
  cases et with
  | UPDATE =>
      cases read with
      | none => rfl
      | some r2 =>
          by_cases h : r2.preferred_language = "" <;>
            simp [subAndCreditsHandler, h]
  | DELETE =>
      cases read with
      | none => rfl
      | some r2 =>
          by_cases h : r2.preferred_language = "" <;>
            simp [subAndCreditsHandler, h]
  | INSERT =>
      cases nr with
      | none => rfl
      | some r2 =>
          by_cases h1 : r2.user_id = uid
          · by_cases h2 : r2.preferred_language = "" <;>
              simp [subAndCreditsHandler, h1, h2]
          · simp [subAndCreditsHandler, h1]

/-- Claim C9 is false as stated: the sub-and-credits handler updates the
AppContent credits from the fresh read (3), but leaves
`window.__CREDITS__` at its old value (1): the synchronous slot does not see
this State Store change. -/
theorem window_credits_not_mirrored :
    (subAndCreditsHandler "u"
        { eventType := EventType.UPDATE,
          newRow := some
            { user_id := "u", credits := 3, preferred_language := "python" } }
        (some { user_id := "u", credits := 3, preferred_language := "python" })
        { isSubscribed := true, credits := some 1, currentLanguage := "python" }
        { credits := some 1, language := some "python",
          isInitialized := some true }).1.credits = some 3 ∧
    (subAndCreditsHandler "u"
        { eventType := EventType.UPDATE,
          newRow := some
            { user_id := "u", credits := 3, preferred_language := "python" } }
        (some { user_id := "u", credits := 3, preferred_language := "python" })
        { isSubscribed := true, credits := some 1, currentLanguage := "python" }
        { credits := some 1, language := some "python",
          isInitialized := some true }).2.credits = some 1 ∧
    some (3 : Int) ≠ some (1 : Int) := by
  decide

/-- Claim C9 amended: the App-side helpers updateCredits, updateLanguage and
markInitialized always mirror the written value into the window slot, and the
sub-and-credits handler mirrors only preferred_language: it never writes
`window.__CREDITS__`, which keeps its previous value. -/
theorem window_mirroring (s : AppState) (w : Window) (n : Int) (l : String)
    (uid : String) (p : ChangePayload) (read : Option SubscriptionRow)
    (c : AppContentState) :
    (updateCredits s w n).2.credits = some (updateCredits s w n).1.credits ∧
    (updateLanguage s w l).2.language =
      some (updateLanguage s w l).1.currentLanguage ∧
    (markInitialized s w).2.isInitialized =
      some (markInitialized s w).1.isInitialized ∧
    (subAndCreditsHandler uid p read c w).2.credits = w.credits := by
  refine ⟨rfl, rfl, rfl, ?_⟩
  obtain ⟨et, nr⟩ := p
  cases et with
  | UPDATE =>
      cases read with
      | none => rfl
      | some r2 =>
          by_cases h : r2.preferred_language = "" <;>
            simp [subAndCreditsHandler, h]
  | DELETE =>
      cases read with
      | none => rfl
      | some r2 =>
          by_cases h : r2.preferred_language = "" <;>
            simp [subAndCreditsHandler, h]
  | INSERT =>
      cases nr with
      | none => rfl
      | some r2 =>
          by_cases h1 : r2.user_id = uid
          · by_cases h2 : r2.preferred_language = "" <;>
              simp [subAndCreditsHandler, h1, h2]
          · simp [subAndCreditsHandler, h1]

/-- Claim C4 evaluated at the failing input: the effect callback is async, so
React receives `none` as the cleanup (the returned closure sits inside a
discarded Promise); after switching identity from A to B both credits channels
are live, isInitialized was never reset, and an UPDATE event for A still
mutates the replica credits (to 42 here). -/
theorem identity_switch_leaks_subscription :
    (effectBody (some "A")
        (ReadOutcome.found
          { user_id := "A", credits := 5, preferred_language := "python" })
        initialLifecycle).2 = none ∧
    (reactRerun
        (effectBody (some "A")
          (ReadOutcome.found
            { user_id := "A", credits := 5, preferred_language := "python" })
          initialLifecycle).2
        (some "B")
        (ReadOutcome.found
          { user_id := "B", credits := 9, preferred_language := "python" })
        (effectBody (some "A")
          (ReadOutcome.found
            { user_id := "A", credits := 5, preferred_language := "python" })
          initialLifecycle).1).1.liveChannels = ["B", "A"] ∧
    (deliverCreditsEvent
        (reactRerun
          (effectBody (some "A")
            (ReadOutcome.found
              { user_id := "A", credits := 5, preferred_language := "python" })
            initialLifecycle).2
          (some "B")
          (ReadOutcome.found
            { user_id := "B", credits := 9, preferred_language := "python" })
          (effectBody (some "A")
            (ReadOutcome.found
              { user_id := "A", credits := 5, preferred_language := "python" })
            initialLifecycle).1).1
        "A"
        { user_id := "A", credits := 42, preferred_language := "python" }).app.credits
      = 42 := by
  decide

end CreditSync
